import Mathlib

/-!
Verification development for the yuuka-render chat/display bridge
(`src/yuuka_render.py`).

The Python source is shallowly embedded: pure fragments become Lean
functions, the stateful registries become explicit record-passing, and
Python exceptions become `Except PyExc`.  Python `dict`s are modelled as
association lists mutated by `pySet` / `pyDel`, Python `set`s of websocket
handles as duplicate-free `List Nat`.  Python string operations
(`split`, `strip`, `replace`, `find`, `rfind`, slicing, `in`) are
reimplemented on `List Char` with the same observable semantics, using
structural or fuelled recursion so that every definition evaluates by
kernel reduction.

`json.loads` / the websocket transport / the Gemini client are external
collaborators of the source; they are modelled at their interface: a
small executable JSON parser (documented restrictions: no floats, no
ASCII-exotic escapes), a per-connection send-outcome function, and a
per-message model-response value.
-/

namespace YuukaRender

/-- Python exception classes that can arise in the modelled code paths. -/
inductive PyExc where
  | jsonDecodeError
  | keyError
  | attributeError
  | typeError
  | sendError (conn : Nat)
  | modelFailure
deriving DecidableEq

/-- Values produced by `json.loads`: JSON strings, integers, booleans,
`null`, arrays and objects.  (Floats are outside this model; see
`jsonParse`.) -/
inductive JValue where
  | str (s : String)
  | num (n : Int)
  | bool (b : Bool)
  | null
  | arr (elems : List JValue)
  | obj (fields : List (String × JValue))

/-- Hashable Python values that occur as `dict` keys in this program:
the `guild_id` taken verbatim from the registration JSON.  JSON arrays
and objects decode to Python `list` / `dict`, which are unhashable and
make `dict` indexing raise `TypeError`; they therefore have no `PyKey`
counterpart. -/
inductive PyKey where
  | str (s : String)
  | num (n : Int)
  | bool (b : Bool)
  | none_
deriving DecidableEq

/-- `True` exactly for the JSON values whose Python decoding is hashable. -/
def pyHashable : JValue → Bool
  | JValue.arr _ => false
  | JValue.obj _ => false
  | _ => true

/-- The `PyKey` of a hashable JSON value (`none` for list/dict values,
where Python raises `TypeError` on any `dict` indexing). -/
def toKey? : JValue → Option PyKey
  | JValue.str s => some (PyKey.str s)
  | JValue.num n => some (PyKey.num n)
  | JValue.bool b => some (PyKey.bool b)
  | JValue.null => some PyKey.none_
  | _ => none

/-- Python `d[k]` read / `d.get(k)`: first binding of `k` in the
association list (keys are kept duplicate-free by `pySet`). -/
def pyGet {α β : Type} [DecidableEq α] (k : α) : List (α × β) → Option β
  | [] => none
  | (k', v) :: rest => if k' = k then some v else pyGet k rest

/-- Python `d[k] = v`: replace the binding in place, else append. -/
def pySet {α β : Type} [DecidableEq α] (k : α) (v : β) : List (α × β) → List (α × β)
  | [] => [(k, v)]
  | (k', v') :: rest => if k' = k then (k, v) :: rest else (k', v') :: pySet k v rest

/-- Python `del d[k]` (call sites guarantee the key is present, so the
`KeyError` case does not arise; on duplicate-free keys deleting the one
binding equals filtering). -/
def pyDel {α β : Type} [DecidableEq α] (k : α) (l : List (α × β)) : List (α × β) :=
  l.filter (fun p => decide (p.1 ≠ k))

/-- Keys of an association list. -/
def keysOf {α β : Type} (l : List (α × β)) : List α := l.map Prod.fst

/-- Python `set.add` on a duplicate-free list. -/
def setAdd (ws : Nat) (s : List Nat) : List Nat :=
  if ws ∈ s then s else s ++ [ws]

/- ### Python string operations, on `List Char` -/

/-- Whitespace stripped by Python `str.strip()` (ASCII part). -/
def pyIsSpace (c : Char) : Bool :=
  c == ' ' || c == '\t' || c == '\n' || c == '\r' || c == Char.ofNat 11 || c == Char.ofNat 12

/-- Python `str.strip()`. -/
def pyStripL (cs : List Char) : List Char :=
  ((cs.dropWhile pyIsSpace).reverse.dropWhile pyIsSpace).reverse

/-- Python `str.strip()` at `String` type. -/
def pyStrip (s : String) : String := String.mk (pyStripL s.data)

/-- Fuelled worker for Python `str.split(sep)` with non-empty `sep`:
greedy leftmost non-overlapping matches. -/
def pySplitGo : Nat → List Char → List Char → List Char → List (List Char)
  | 0, _, acc, cs => [acc.reverse ++ cs]
  | f + 1, sep, acc, cs =>
    match cs with
    | [] => [acc.reverse]
    | c :: rest =>
      if sep.isPrefixOf cs then acc.reverse :: pySplitGo f sep [] (cs.drop sep.length)
      else pySplitGo f sep (c :: acc) rest

/-- Python `s.split(sep)` for non-empty `sep`. -/
def pySplit (sep cs : List Char) : List (List Char) := pySplitGo (cs.length + 1) sep [] cs

/-- Fuelled worker for Python `str.replace(pat, repl)` with non-empty
`pat`: replace every leftmost non-overlapping match. -/
def pyReplaceGo : Nat → List Char → List Char → List Char → List Char
  | 0, _, _, cs => cs
  | f + 1, pat, repl, cs =>
    match cs with
    | [] => []
    | c :: rest =>
      if pat.isPrefixOf cs then repl ++ pyReplaceGo f pat repl (cs.drop pat.length)
      else c :: pyReplaceGo f pat repl rest

/-- Python `s.replace(pat, repl)` for non-empty `pat`. -/
def pyReplace (pat repl cs : List Char) : List Char :=
  pyReplaceGo (cs.length + 1) pat repl cs

/-- Python `pat in s` (substring containment) for non-empty `pat`. -/
def containsSeq (pat : List Char) : List Char → Bool
  | [] => pat.isEmpty
  | c :: rest => pat.isPrefixOf (c :: rest) || containsSeq pat rest

/-- Index of the last occurrence of `c` (Python `str.rfind` on success). -/
def lastIdxOf (c : Char) (cs : List Char) : Option Nat :=
  match cs.reverse.findIdx? (fun x => x == c) with
  | some i => some (cs.length - 1 - i)
  | none => none

def lbrace : Char := Char.ofNat 123

def rbrace : Char := Char.ofNat 125

def fenceJson : List Char := "```json".data

def fence3 : List Char := "```".data

/- ### A model of `json.loads` (Python standard library, external
collaborator).  Restrictions of the model, documented: numbers must be
integers without leading zeros (floats and exponents are rejected, as
floating point is outside the embedding), and string escapes are limited
to the common single-character ones (no `\uXXXX`).  Every concrete input
used in a theorem below is within the faithful fragment. -/

def qmark : Char := Char.ofNat 34

def bslash : Char := Char.ofNat 92

def jsonWsChar (c : Char) : Bool :=
  c == ' ' || c == '\t' || c == '\n' || c == '\r'

def skipWs (cs : List Char) : List Char := cs.dropWhile jsonWsChar

/-- Fuelled JSON string-body scanner (position just after the opening
quote); returns the decoded string and the rest of the input. -/
def parseStringBody : Nat → List Char → List Char → Option (String × List Char)
  | 0, _, _ => none
  | _ + 1, _, [] => none
  | f + 1, acc, c :: rest =>
    if c == qmark then some (String.mk acc.reverse, rest)
    else if c == bslash then
      match rest with
      | [] => none
      | e :: rest2 =>
        if e == qmark then parseStringBody f (qmark :: acc) rest2
        else if e == bslash then parseStringBody f (bslash :: acc) rest2
        else if e == '/' then parseStringBody f ('/' :: acc) rest2
        else if e == 'n' then parseStringBody f ('\n' :: acc) rest2
        else if e == 't' then parseStringBody f ('\t' :: acc) rest2
        else if e == 'r' then parseStringBody f ('\r' :: acc) rest2
        else if e == 'b' then parseStringBody f (Char.ofNat 8 :: acc) rest2
        else if e == 'f' then parseStringBody f (Char.ofNat 12 :: acc) rest2
        else none
    else parseStringBody f (c :: acc) rest

def digitsVal (ds : List Char) : Nat :=
  ds.foldl (fun a c => a * 10 + (c.toNat - 48)) 0

/-- JSON integer literal (optionally negative, no leading zeros; a
following `.`, `e` or `E` would start a float, outside this model). -/
def parseNumber (cs : List Char) : Option (JValue × List Char) :=
  let negAndRest : Bool × List Char :=
    match cs with
    | c :: rest => if c == '-' then (true, rest) else (false, cs)
    | [] => (false, cs)
  let ds := negAndRest.2.takeWhile Char.isDigit
  if ds.isEmpty then none
  else if ds.length ≥ 2 && ds.headD '0' == '0' then none
  else
    let rest := negAndRest.2.drop ds.length
    let n : Int := if negAndRest.1 then -(digitsVal ds : Int) else (digitsVal ds : Int)
    match rest with
    | c :: _ => if c == '.' || c == 'e' || c == 'E' then none else some (JValue.num n, rest)
    | [] => some (JValue.num n, [])

/-- Python `dict` construction keeps the last value for a repeated key. -/
def objInsert (fields : List (String × JValue)) (k : String) (v : JValue) :
    List (String × JValue) :=
  pySet k v fields

mutual

/-- Fuelled recursive-descent JSON value. -/
def parseVal : Nat → List Char → Option (JValue × List Char)
  | 0, _ => none
  | f + 1, cs =>
    match skipWs cs with
    | [] => none
    | c :: rest =>
      if c == qmark then
        match parseStringBody (rest.length + 1) [] rest with
        | some (s, r) => some (JValue.str s, r)
        | none => none
      else if c == lbrace then
        match skipWs rest with
        | [] => none
        | c2 :: r2 =>
          if c2 == rbrace then some (JValue.obj [], r2)
          else parseObjFields f (c2 :: r2) []
      else if c == '[' then
        match skipWs rest with
        | [] => none
        | c2 :: r2 =>
          if c2 == ']' then some (JValue.arr [], r2)
          else parseArrElems f (c2 :: r2) []
      else if c == 't' then
        if rest.take 3 = ['r', 'u', 'e'] then some (JValue.bool true, rest.drop 3) else none
      else if c == 'f' then
        if rest.take 4 = ['a', 'l', 's', 'e'] then some (JValue.bool false, rest.drop 4)
        else none
      else if c == 'n' then
        if rest.take 3 = ['u', 'l', 'l'] then some (JValue.null, rest.drop 3) else none
      else parseNumber (c :: rest)

/-- Fuelled member list of a JSON object (position at the start of a key). -/
def parseObjFields : Nat → List Char → List (String × JValue) →
    Option (JValue × List Char)
  | 0, _, _ => none
  | _ + 1, [], _ => none
  | f + 1, c :: rest, acc =>
    if c == qmark then
      match parseStringBody (rest.length + 1) [] rest with
      | some (k, r1) =>
        match skipWs r1 with
        | ':' :: r2 =>
          match parseVal f (skipWs r2) with
          | some (v, r3) =>
            match skipWs r3 with
            | ',' :: r4 => parseObjFields f (skipWs r4) (objInsert acc k v)
            | c2 :: r4 =>
              if c2 == rbrace then some (JValue.obj (objInsert acc k v), r4) else none
            | [] => none
          | none => none
        | _ => none
      | none => none
    else none

/-- Fuelled element list of a JSON array (position at the start of a value). -/
def parseArrElems : Nat → List Char → List JValue → Option (JValue × List Char)
  | 0, _, _ => none
  | f + 1, cs, acc =>
    match parseVal f cs with
    | some (v, r1) =>
      match skipWs r1 with
      | ',' :: r2 => parseArrElems f (skipWs r2) (acc ++ [v])
      | c2 :: r2 => if c2 == ']' then some (JValue.arr (acc ++ [v]), r2) else none
      | [] => none
    | none => none

end

/-- Model of `json.loads`: parse one value, require only whitespace after
it, raise `json.JSONDecodeError` otherwise. -/
def jsonParse (s : String) : Except PyExc JValue :=
  match parseVal (s.data.length + 2) s.data with
  | some (v, rest) =>
    if (skipWs rest).isEmpty then Except.ok v else Except.error PyExc.jsonDecodeError
  | none => Except.error PyExc.jsonDecodeError

/- ### Response decoding (`on_message`, decode block) -/

/-- `EMOTION_SPRITE_MAP` from the source, verbatim. -/
def EMOTION_SPRITE_MAP : List (String × String) :=
  [("neutral", "yuuka_neutral.png"),
   ("neutral2", "yuuka_neutral2.png"),
   ("neutral3", "yuuka_neutral3.png"),
   ("smile", "yuuka_smile.png"),
   ("smile2", "yuuka_smile2.png"),
   ("blush", "yuuka_blush.png"),
   ("angry", "yuuka_angry.png"),
   ("angry2", "yuuka_angry2.png")]

/-- `EMOTION_SPRITE_MAP["neutral"]` (the key is present, so Python's
`KeyError` case does not arise). -/
def neutralSprite : String := (pyGet "neutral" EMOTION_SPRITE_MAP).getD ""

/-- `EMOTION_SPRITE_MAP.get(k, neutralSprite)` for a hashable key `k`:
only a string equal to a map key hits; every other hashable value
misses and yields the default. -/
def pySpriteOf : JValue → String
  | JValue.str s => (pyGet s EMOTION_SPRITE_MAP).getD neutralSprite
  | _ => neutralSprite

/-- `EMOTION_SPRITE_MAP.get(emotion_key, EMOTION_SPRITE_MAP["neutral"])`:
an unhashable key (list/dict) raises `TypeError` before any lookup. -/
def emotionGet (k : JValue) : Except PyExc String :=
  if pyHashable k then Except.ok (pySpriteOf k) else Except.error PyExc.typeError

/-- The payload broadcast to display clients:
`{"text": dialogue_text, "sprite": sprite_filename}` (the JSON wire
serialisation by `json.dumps` is abstracted; `dialogue_text` is whatever
value `gemini_data.get("text", "...")` returned, hence a `JValue`). -/
structure ReplyPayload where
  text : JValue
  sprite : String

/-- One element of `prompt_parts`: the composite text block, or an image
(knowledge-base image or fetched attachment image; the pixel data is
abstracted). -/
inductive PromptPart where
  | text (s : String)
  | image

/-- Tags for the `print` statements in the modelled code paths. -/
inductive LogEvent where
  | noClients (gid : String)
  | rawResponse (raw : String)
  | noJsonFound
  | parseFailed
  | attachmentAdded
  | attachmentError
  | broadcastDone (gid : String) (n : Nat)
  | modelCallError

/-- Observable effects of the pipeline, in program order: console logs,
messages sent back on the originating chat channel, the model invocation,
and websocket sends to display connections. -/
inductive Effect where
  | consoleLog (ev : LogEvent)
  | channelSend (msg : String)
  | modelCall (parts : List PromptPart)
  | wsSend (conn : Nat) (payload : ReplyPayload)

/-- Candidate extraction, steps 1-2 of the decode block:
if `"```json" in raw` take `raw.split("```json")[1].split("```")[0].strip()`,
else slice from the first `{` to the last `}` inclusive. -/
def extract_candidate (raw : List Char) : List Char :=
  if containsSeq fenceJson raw then
    pyStripL ((pySplit fence3 ((pySplit fenceJson raw).getD 1 [])).getD 0 [])
  else
    match raw.findIdx? (fun x => x == lbrace), lastIdxOf rbrace raw with
    | some s, some e =>
      if s < e + 1 then (raw.drop s).take (e + 1 - s) else []
    | _, _ => []

/-- Candidate extraction at `String` type (`json_str` in the source). -/
def extractJsonStr (raw : String) : String := String.mk (extract_candidate raw.data)

/-- `raw.replace("```json", "").replace("```", "").strip()` — the
raw-text fallback of the decode `except` branch. -/
def stripFences (raw : String) : String :=
  String.mk (pyStripL (pyReplace fence3 [] (pyReplace fenceJson [] raw.data)))

/-- The decode block of `on_message` (source lines 331-356): returns the
`print` effects it performs and either the decoded `ReplyPayload` or the
Python exception that escapes the inner
`except (json.JSONDecodeError, KeyError)` handler (`AttributeError` from
`.get` on a non-dict parse, `TypeError` from an unhashable emotion key). -/
def decodeResponse (raw : String) : List Effect × Except PyExc ReplyPayload :=
  let json_str := extractJsonStr raw
  if json_str = "" then
    ([Effect.consoleLog LogEvent.noJsonFound],
     Except.ok ⟨JValue.str (pyStrip raw), neutralSprite⟩)
  else
    match jsonParse json_str with
    | Except.error _ =>
      ([Effect.consoleLog LogEvent.parseFailed],
       Except.ok ⟨JValue.str (stripFences raw), neutralSprite⟩)
    | Except.ok (JValue.obj fields) =>
      match emotionGet ((pyGet "emotion" fields).getD (JValue.str "neutral")) with
      | Except.ok sprite =>
        ([], Except.ok ⟨(pyGet "text" fields).getD (JValue.str "..."), sprite⟩)
      | Except.error e => ([], Except.error e)
    | Except.ok _ => ([], Except.error PyExc.attributeError)

/- ### Client registry and connection gateway (`websocket_handler`) -/

/-- The two registration maps: `clients_by_guild` (guild id key, taken
verbatim from the registration JSON, to set of websocket handles) and
`client_to_guild` (websocket handle to guild id).  Websocket objects are
identified by `Nat` handles. -/
structure Registry where
  clients_by_guild : List (PyKey × List Nat)
  client_to_guild : List (Nat × PyKey)

def Registry.empty : Registry := ⟨[], []⟩

/-- Successful registration (source lines 119-120):
`clients_by_guild[guild_id].add(websocket)` on the `defaultdict(set)`,
then `client_to_guild[websocket] = guild_id`. -/
def registerClient (reg : Registry) (ws : Nat) (gid : PyKey) : Registry :=
  { clients_by_guild :=
      pySet gid (setAdd ws ((pyGet gid reg.clients_by_guild).getD [])) reg.clients_by_guild,
    client_to_guild := pySet ws gid reg.client_to_guild }

/-- The `finally` teardown (source lines 132-143): if the websocket is
registered, remove it from its guild's set, delete the guild entry when
the set became empty, and delete the reverse binding; otherwise do
nothing.  `none` models the (invariant-precluded) `KeyError` from
`set.remove` when the handle is missing from the set. -/
def teardownClient (reg : Registry) (ws : Nat) : Option Registry :=
  match pyGet ws reg.client_to_guild with
  | none => some reg
  | some gid =>
    let s := (pyGet gid reg.clients_by_guild).getD []
    if ws ∈ s then
      let s' := s.filter (fun w => decide (w ≠ ws))
      some { clients_by_guild :=
               if s' = [] then pyDel gid reg.clients_by_guild
               else pySet gid s' reg.clients_by_guild,
             client_to_guild := pyDel ws reg.client_to_guild }
    else none

/-- Outcome of the handshake on the first received message. -/
inductive HandshakeResult where
  | registered (gid : PyKey)
  | closedInvalid
  | errorCaught (e : PyExc)
  | crashed (e : PyExc)

/-- `websocket_handler`'s handling of the first received message (source
lines 113-128): `json.loads` failure is caught by the
`except (ConnectionClosedError, JSONDecodeError, KeyError)` clause
(`errorCaught`; the handler returns, which closes the connection); a
first message whose decoded value is not a dict raises `AttributeError`
at `.get` (`crashed`; uncaught, the serving library closes the
connection); a dict without `type == "register"` and a `guild_id` key is
closed explicitly (`closedInvalid`); a `guild_id` decoding to an
unhashable value raises `TypeError` at the `defaultdict` indexing
(`crashed`, before either map is touched).  Only the success path
mutates the registry. -/
def handleFirstMessage (reg : Registry) (ws : Nat) (firstMsg : String) :
    Registry × HandshakeResult :=
  match jsonParse firstMsg with
  | Except.error _ => (reg, HandshakeResult.errorCaught PyExc.jsonDecodeError)
  | Except.ok (JValue.obj fields) =>
    match pyGet "type" fields, pyGet "guild_id" fields with
    | some (JValue.str tag), some v =>
      if tag = "register" then
        match toKey? v with
        | some k => (registerClient reg ws k, HandshakeResult.registered k)
        | none => (reg, HandshakeResult.crashed PyExc.typeError)
      else (reg, HandshakeResult.closedInvalid)
    | _, _ => (reg, HandshakeResult.closedInvalid)
  | Except.ok _ => (reg, HandshakeResult.crashed PyExc.attributeError)

/-- A register/teardown event, as produced by the connection gateway. -/
inductive RegOp where
  | register (ws : Nat) (gid : PyKey)
  | teardown (ws : Nat)

def applyOp (reg : Registry) : RegOp → Option Registry
  | RegOp.register ws gid => some (registerClient reg ws gid)
  | RegOp.teardown ws => teardownClient reg ws

def applyOps (reg : Registry) : List RegOp → Option Registry
  | [] => some reg
  | op :: rest =>
    match applyOp reg op with
    | some reg' => applyOps reg' rest
    | none => none

/-- Validity of a gateway event trace, tracking the currently registered
handles: each websocket object registers at most once before its
teardown (the handler reads exactly one registration message per
connection), so a `register` always carries a fresh handle.  Teardown is
unrestricted — it runs in `finally` for registered and unregistered
connections alike. -/
def regValidB : List Nat → List RegOp → Bool
  | _, [] => true
  | regd, RegOp.register ws _ :: rest =>
    !(decide (ws ∈ regd)) && regValidB (regd ++ [ws]) rest
  | regd, RegOp.teardown ws :: rest =>
    regValidB (regd.filter (fun w => decide (w ≠ ws))) rest

/-- The registry well-formedness invariant: key lists are
duplicate-free, every guild entry holds a non-empty duplicate-free
connection set, a handle in a guild's set is reverse-mapped to exactly
that guild, and every reverse binding points into the corresponding
guild set.  In particular a guild key exists iff some live connection
references it, and `client_to_guild` binds exactly the currently
registered handles. -/
def Registry.wf (reg : Registry) : Prop :=
  (keysOf reg.clients_by_guild).Nodup ∧
  (keysOf reg.client_to_guild).Nodup ∧
  (∀ k s, pyGet k reg.clients_by_guild = some s → s ≠ [] ∧ s.Nodup) ∧
  (∀ k s, pyGet k reg.clients_by_guild = some s →
    ∀ ws ∈ s, pyGet ws reg.client_to_guild = some k) ∧
  (∀ w g, pyGet w reg.client_to_guild = some g →
    w ∈ (pyGet g reg.clients_by_guild).getD [])

/- ### Broadcast router (`broadcast_to_clients`) -/

/-- The exception `asyncio.gather` (without `return_exceptions`)
propagates: the first failure, if any.  All the gathered send tasks are
started and are not cancelled by a sibling's failure, so every
connection still gets its send attempt. -/
def firstErr : List (Except PyExc Unit) → Except PyExc Unit
  | [] => Except.ok ()
  | Except.ok _ :: rest => firstErr rest
  | Except.error e :: _ => Except.error e

/-- `broadcast_to_clients(guild_id, message_data)` (source lines
98-106): no-op when the guild id has no entry or an empty set; otherwise
send to every client via `asyncio.gather` and print on success.
`sendRes` is the per-connection outcome of `client.send` (the websocket
transport is an external collaborator). -/
def broadcast_to_clients (cbg : List (PyKey × List Nat)) (sendRes : Nat → Except PyExc Unit)
    (guild_id : String) (payload : ReplyPayload) : List Effect × Except PyExc Unit :=
  match pyGet (PyKey.str guild_id) cbg with
  | none => ([], Except.ok ())
  | some clients =>
    if clients = [] then ([], Except.ok ())
    else
      match firstErr (clients.map sendRes) with
      | Except.ok _ =>
        (clients.map (fun c => Effect.wsSend c payload) ++
           [Effect.consoleLog (LogEvent.broadcastDone guild_id clients.length)],
         Except.ok ())
      | Except.error e => (clients.map (fun c => Effect.wsSend c payload), Except.error e)

/- ### Knowledge store (`load_knowledge_base`) -/

/-- A knowledge-base entry: file text, or a decoded image (pixel data
abstracted). -/
inductive KEntry where
  | ktext (content : String)
  | kimage

/-- One file matched by the glob patterns (`*.txt`, `*.md`, `*.png`,
`*.jpg`, `*.jpeg`, `*.webp` inside `knowledge_base/`): its base name and
the outcome of reading it (`none` when `open`/`Image.open` raised and
the file is skipped). -/
structure KFile where
  base : String
  content : Option KEntry

/-- `load_knowledge_base()` (source lines 146-176): reset the cache,
return early (empty) when the directory is missing, otherwise insert
each successfully read file keyed by base name, skipping per-file
failures.  The result replaces the previous cache wholesale. -/
def load_knowledge_base (dirExists : Bool) (files : List KFile) : List (String × KEntry) :=
  if dirExists then
    files.foldl (fun cache f =>
      match f.content with
      | some e => pySet f.base e cache
      | none => cache) []
  else []

/-- The count reported by the `/지식갱신` command
(`len(knowledge_cache)` after `load_knowledge_base()`). -/
def reload_knowledge_count (dirExists : Bool) (files : List KFile) : Nat :=
  (load_knowledge_base dirExists files).length

/- ### Message pipeline (`on_message`) -/

/-- An inbound chat attachment: its declared content type and whether
fetching plus decoding it succeeds (`attachment.read()` /
`Image.open`). -/
structure Attachment where
  content_type : Option String
  fetch_ok : Bool
deriving DecidableEq

/-- An inbound chat message. -/
structure InboundMessage where
  author_is_bot : Bool
  guild_id : Option Nat
  channel_id : Nat
  content : String
  attachments : List Attachment
  author_name : String

/-- The bot's process-wide state read or written by `on_message`: the
currently configured channel id (re-read from the environment each
message; modelled as its current value), the client registry's guild
map, the session map (sessions keyed by the integer guild id; the turn
history lives in the model collaborator, so presence is what matters),
and the knowledge cache. -/
structure BotState where
  channelId : Nat
  clients_by_guild : List (PyKey × List Nat)
  chat_sessions : List Nat
  knowledge_cache : List (String × KEntry)

/-- `if guild_id not in chat_sessions: chat_sessions[guild_id] = ...`. -/
def sessionsInsert (sessions : List Nat) (gid : Nat) : List Nat :=
  if gid ∈ sessions then sessions else sessions ++ [gid]

/-- An ASCII apostrophe (used inside the prompt text). -/
def apos : String := (Char.ofNat 39).toString

/-- The knowledge text block: header, one section per text entry, footer
— built only when the cache is non-empty. -/
def knowledge_text_context (kc : List (String × KEntry)) : String :=
  if kc.isEmpty then ""
  else
    "--- 참고 자료 ---\n" ++
      kc.foldl (fun acc p =>
        match p.2 with
        | KEntry.ktext content => acc ++ "\n[파일: " ++ p.1 ++ "]\n" ++ content ++ "\n"
        | KEntry.kimage => acc) "" ++
      "--- 끝 ---\n\n"

/-- The knowledge-base images appended to `prompt_parts` during the same
loop (empty cache means the loop does not run). -/
def knowledgeImages (kc : List (String × KEntry)) : List PromptPart :=
  kc.filterMap (fun p =>
    match p.2 with
    | KEntry.kimage => some PromptPart.image
    | KEntry.ktext _ => none)

/-- `attachment.content_type and attachment.content_type.startswith('image/')`. -/
def isImageCT : Option String → Bool
  | some s => !s.isEmpty && ("image/".data.isPrefixOf s.data)
  | none => false

/-- The attachment loop (source lines 312-320): append an image part per
successfully fetched image attachment, log and skip failures. -/
def processAttachments (atts : List Attachment) : List PromptPart × List Effect :=
  atts.foldl (fun acc a =>
    if isImageCT a.content_type then
      if a.fetch_ok then
        (acc.1 ++ [PromptPart.image], acc.2 ++ [Effect.consoleLog LogEvent.attachmentAdded])
      else (acc.1, acc.2 ++ [Effect.consoleLog LogEvent.attachmentError])
    else acc) ([], [])

/-- Model of Python `str(e)` for the modelled exceptions. -/
def pyExcMsg : PyExc → String
  | PyExc.jsonDecodeError => "JSONDecodeError"
  | PyExc.keyError => "KeyError"
  | PyExc.attributeError => "AttributeError"
  | PyExc.typeError => "TypeError"
  | PyExc.sendError n => "ConnectionClosed " ++ toString n
  | PyExc.modelFailure => "GoogleGenerativeAIError"

/-- The chat-channel error report of the outer `except Exception`
handler. -/
def errNotice (e : PyExc) : String :=
  "으앗, 선생님 죄송해요. 생각에 잠시 오류가 생긴 것 같아요: `" ++ pyExcMsg e ++ "`"

/-- `prompt_parts` as handed to the model: first the composite text
block (knowledge text context, the sender's name line, the stripped
message body), then the knowledge-base images, then the successfully
fetched attachment images. -/
def promptPartsOf (st : BotState) (msg : InboundMessage) : List PromptPart :=
  PromptPart.text (knowledge_text_context st.knowledge_cache ++
      "내 이름은 " ++ apos ++ msg.author_name ++ apos ++ "이야.\n\n" ++
      pyStrip msg.content) ::
    (knowledgeImages st.knowledge_cache ++ (processAttachments msg.attachments).1)

/-- `on_message` (source lines 272-363).  `modelResult` is the outcome
of the Gemini call for this message (external collaborator),
`sendRes` the per-connection send outcome.  Returns the new state and
the ordered observable effects.  The `processing_lock` serialises the
whole body; a single invocation is modelled.  The typing indicator and
the remaining `print`s are presentation-only and not modelled as
effects. -/
def on_message (st : BotState) (modelResult : Except PyExc String)
    (sendRes : Nat → Except PyExc Unit) (msg : InboundMessage) : BotState × List Effect :=
  if msg.author_is_bot then (st, [])
  else
    match msg.guild_id with
    | none => (st, [])
    | some gid =>
      if msg.channel_id ≠ st.channelId then (st, [])
      else
        let gidStr := toString gid
        match pyGet (PyKey.str gidStr) st.clients_by_guild with
        | none => (st, [Effect.consoleLog (LogEvent.noClients gidStr)])
        | some _ =>
          let st1 : BotState := { st with chat_sessions := sessionsInsert st.chat_sessions gid }
          let user_message := pyStrip msg.content
          if user_message = "" ∧ msg.attachments = [] then (st1, [])
          else
            let pa := processAttachments msg.attachments
            let parts := promptPartsOf st msg
            match modelResult with
            | Except.error e =>
              (st1, pa.2 ++ [Effect.modelCall parts, Effect.consoleLog LogEvent.modelCallError,
                Effect.channelSend (errNotice e)])
            | Except.ok raw =>
              match decodeResponse raw with
              | (dLogs, Except.error e) =>
                (st1, pa.2 ++ [Effect.modelCall parts,
                  Effect.consoleLog (LogEvent.rawResponse raw)] ++ dLogs ++
                  [Effect.consoleLog LogEvent.modelCallError,
                   Effect.channelSend (errNotice e)])
              | (dLogs, Except.ok payload) =>
                match broadcast_to_clients st.clients_by_guild sendRes gidStr payload with
                | (bEffects, Except.ok _) =>
                  (st1, pa.2 ++ [Effect.modelCall parts,
                    Effect.consoleLog (LogEvent.rawResponse raw)] ++ dLogs ++ bEffects)
                | (bEffects, Except.error e) =>
                  (st1, pa.2 ++ [Effect.modelCall parts,
                    Effect.consoleLog (LogEvent.rawResponse raw)] ++ dLogs ++ bEffects ++
                    [Effect.consoleLog LogEvent.modelCallError,
                     Effect.channelSend (errNotice e)])

/- ### Association-list and set helper lemmas -/

theorem keysOf_nil {α β : Type} : keysOf ([] : List (α × β)) = [] := rfl

theorem keysOf_cons {α β : Type} (a : α) (b : β) (l : List (α × β)) :
    keysOf ((a, b) :: l) = a :: keysOf l := rfl

theorem keysOf_append {α β : Type} (l₁ l₂ : List (α × β)) :
    keysOf (l₁ ++ l₂) = keysOf l₁ ++ keysOf l₂ := by
  simp [keysOf]

theorem pyGet_eq_none_iff {α β : Type} [DecidableEq α] (k : α) (l : List (α × β)) :
    pyGet k l = none ↔ k ∉ keysOf l := by
  induction l with
  | nil => simp [pyGet, keysOf_nil]
  | cons p rest ih =>
    obtain ⟨k', v⟩ := p
    by_cases h : k' = k
    · simp [pyGet, keysOf_cons, h]
    · simp [pyGet, keysOf_cons, h, ih, Ne.symm h]

theorem mem_keys_of_pyGet_some {α β : Type} [DecidableEq α] {k : α} {v : β}
    {l : List (α × β)} (h : pyGet k l = some v) : k ∈ keysOf l := by
  by_contra hm
  rw [(pyGet_eq_none_iff k l).2 hm] at h
  exact Option.noConfusion h

theorem pyGet_append_some {α β : Type} [DecidableEq α] {k : α} {v : β}
    {l₁ l₂ : List (α × β)} (h : pyGet k l₁ = some v) : pyGet k (l₁ ++ l₂) = some v := by
  induction l₁ with
  | nil => simp [pyGet] at h
  | cons p rest ih =>
    obtain ⟨k', v'⟩ := p
    by_cases hk : k' = k
    · simp [pyGet, hk] at h ⊢
      exact h
    · simp [pyGet, hk] at h ⊢
      exact ih h

theorem pyGet_append_none {α β : Type} [DecidableEq α] {k : α}
    {l₁ l₂ : List (α × β)} (h : pyGet k l₁ = none) :
    pyGet k (l₁ ++ l₂) = pyGet k l₂ := by
  induction l₁ with
  | nil => simp
  | cons p rest ih =>
    obtain ⟨k', v'⟩ := p
    by_cases hk : k' = k
    · simp [pyGet, hk] at h
    · simp [pyGet, hk] at h ⊢
      exact ih h

theorem pySet_fresh {α β : Type} [DecidableEq α] {k : α} (v : β) {l : List (α × β)}
    (h : k ∉ keysOf l) : pySet k v l = l ++ [(k, v)] := by
  induction l with
  | nil => simp [pySet]
  | cons p rest ih =>
    obtain ⟨k', v'⟩ := p
    rw [keysOf_cons] at h
    have h1 : ¬k' = k := fun he => h (by simp [he])
    have h2 : k ∉ keysOf rest := fun hm => h (by simp [hm])
    simp [pySet, h1, ih h2]

theorem pyGet_pySet_self {α β : Type} [DecidableEq α] (k : α) (v : β) (l : List (α × β)) :
    pyGet k (pySet k v l) = some v := by
  induction l with
  | nil => simp [pySet, pyGet]
  | cons p rest ih =>
    obtain ⟨k', v'⟩ := p
    by_cases hk : k' = k
    · simp [pySet, pyGet, hk]
    · simp [pySet, pyGet, hk, ih]

theorem pyGet_pySet_ne {α β : Type} [DecidableEq α] {k' k : α} (v : β) (l : List (α × β))
    (h : k' ≠ k) : pyGet k' (pySet k v l) = pyGet k' l := by
  induction l with
  | nil => simp [pySet, pyGet, Ne.symm h]
  | cons p rest ih =>
    obtain ⟨k₀, v₀⟩ := p
    by_cases hk : k₀ = k
    · simp [pySet, pyGet, hk, Ne.symm h]
    · simp [pySet, pyGet, hk, ih]

theorem keysOf_pySet_mem {α β : Type} [DecidableEq α] {k : α} (v : β) {l : List (α × β)}
    (h : k ∈ keysOf l) : keysOf (pySet k v l) = keysOf l := by
  induction l with
  | nil => simp [keysOf_nil] at h
  | cons p rest ih =>
    obtain ⟨k', v'⟩ := p
    by_cases hk : k' = k
    · simp [pySet, hk, keysOf_cons]
    · rw [keysOf_cons] at h
      have h2 : k ∈ keysOf rest := by
        rcases List.mem_cons.1 h with h1 | h1
        · exact absurd h1.symm hk
        · exact h1
      simp [pySet, hk, keysOf_cons, ih h2]

theorem keysOf_pySet_notMem {α β : Type} [DecidableEq α] {k : α} (v : β) {l : List (α × β)}
    (h : k ∉ keysOf l) : keysOf (pySet k v l) = keysOf l ++ [k] := by
  rw [pySet_fresh v h, keysOf_append]
  rfl

theorem keysOf_pyDel_eq {α β : Type} [DecidableEq α] (k : α) (l : List (α × β)) :
    keysOf (pyDel k l) = (keysOf l).filter (fun x => decide (x ≠ k)) := by
  induction l with
  | nil => simp [pyDel, keysOf_nil]
  | cons p rest ih =>
    by_cases h : p.1 = k <;>
      simp [pyDel, keysOf, List.filter_cons, h] at ih ⊢ <;> simpa using ih

theorem pyGet_pyDel_self {α β : Type} [DecidableEq α] (k : α) (l : List (α × β)) :
    pyGet k (pyDel k l) = none := by
  rw [pyGet_eq_none_iff, keysOf_pyDel_eq]
  simp

theorem pyGet_pyDel_ne {α β : Type} [DecidableEq α] {k' k : α} (l : List (α × β))
    (h : k' ≠ k) : pyGet k' (pyDel k l) = pyGet k' l := by
  induction l with
  | nil => simp [pyDel]
  | cons p rest ih =>
    obtain ⟨k₀, v₀⟩ := p
    by_cases hk : k₀ = k
    · simp [pyDel, List.filter_cons, hk, pyGet, Ne.symm h]
      simpa [pyDel] using ih
    · by_cases hk' : k₀ = k'
      · simp [pyDel, List.filter_cons, hk, pyGet, hk', h]
      · simp [pyDel, List.filter_cons, hk, pyGet, hk']
        simpa [pyDel] using ih

theorem mem_setAdd_iff (w ws : Nat) (s : List Nat) :
    w ∈ setAdd ws s ↔ w = ws ∨ w ∈ s := by
  by_cases h : ws ∈ s
  · simp [setAdd, h]
    intro he
    exact he ▸ h
  · simp [setAdd, h, or_comm]

theorem setAdd_ne_nil (ws : Nat) (s : List Nat) : setAdd ws s ≠ [] := by
  by_cases h : ws ∈ s
  · simp [setAdd, h]
    intro he
    exact absurd (he ▸ h) (List.not_mem_nil ws)
  · simp [setAdd, h]

theorem setAdd_nodup {ws : Nat} {s : List Nat} (h : s.Nodup) : (setAdd ws s).Nodup := by
  by_cases hm : ws ∈ s
  · simpa [setAdd, hm] using h
  · simp [setAdd, hm, List.nodup_append, h]

/- ### Registry invariant preservation -/

theorem register_preserves_wf {reg : Registry} {ws : Nat} (gid : PyKey)
    (hwf : reg.wf) (hfresh : pyGet ws reg.client_to_guild = none) :
    (registerClient reg ws gid).wf ∧
      keysOf (registerClient reg ws gid).client_to_guild =
        keysOf reg.client_to_guild ++ [ws] := by
  obtain ⟨hkc, hkt, hsets, hfwd, hbwd⟩ := hwf
  have hwsk : ws ∉ keysOf reg.client_to_guild := (pyGet_eq_none_iff ws _).1 hfresh
  have hctg : pySet ws gid reg.client_to_guild = reg.client_to_guild ++ [(ws, gid)] :=
    pySet_fresh gid hwsk
  have hSnodup : ((pyGet gid reg.clients_by_guild).getD []).Nodup := by
    cases hg : pyGet gid reg.clients_by_guild with
    | none => simp
    | some S => simpa using (hsets gid S hg).2
  have hkeys : keysOf (registerClient reg ws gid).client_to_guild =
      keysOf reg.client_to_guild ++ [ws] := by
    simp only [registerClient]
    rw [hctg, keysOf_append]
    rfl
  refine ⟨⟨?_, ?_, ?_, ?_, ?_⟩, hkeys⟩
  · simp only [registerClient]
    by_cases hg : gid ∈ keysOf reg.clients_by_guild
    · rw [keysOf_pySet_mem _ hg]
      exact hkc
    · rw [keysOf_pySet_notMem _ hg]
      simp [List.nodup_append, hkc, hg]
  · rw [hkeys]
    simp [List.nodup_append, hkt, hwsk]
  · intro k s hks
    simp only [registerClient] at hks
    by_cases hk : k = gid
    · subst hk
      rw [pyGet_pySet_self] at hks
      obtain rfl := Option.some.inj hks
      exact ⟨setAdd_ne_nil _ _, setAdd_nodup hSnodup⟩
    · rw [pyGet_pySet_ne _ _ hk] at hks
      exact hsets k s hks
  · intro k s hks ws' hw'
    simp only [registerClient] at hks ⊢
    rw [hctg]
    by_cases hk : k = gid
    · subst hk
      rw [pyGet_pySet_self] at hks
      obtain rfl := Option.some.inj hks
      rcases (mem_setAdd_iff ws' ws _).1 hw' with rfl | hmem
      · rw [pyGet_append_none hfresh]
        simp [pyGet]
      · cases hg : pyGet k reg.clients_by_guild with
        | none => rw [hg] at hmem; simp at hmem
        | some S =>
          rw [hg] at hmem
          exact pyGet_append_some (hfwd k S hg ws' (by simpa using hmem))
    · rw [pyGet_pySet_ne _ _ hk] at hks
      exact pyGet_append_some (hfwd k s hks ws' hw')
  · intro w g hg'
    simp only [registerClient] at hg' ⊢
    rw [hctg] at hg'
    cases hw : pyGet w reg.client_to_guild with
    | some g₀ =>
      rw [pyGet_append_some hw] at hg'
      obtain rfl := Option.some.inj hg'
      have hold := hbwd w g₀ hw
      by_cases hk : g₀ = gid
      · subst hk
        rw [pyGet_pySet_self]
        simp only [Option.getD_some]
        rw [mem_setAdd_iff]
        right
        simpa using hold
      · rw [pyGet_pySet_ne _ _ hk]
        exact hold
    | none =>
      rw [pyGet_append_none hw] at hg'
      by_cases hww : ws = w
      · subst hww
        simp [pyGet] at hg'
        subst hg'
        rw [pyGet_pySet_self]
        simp only [Option.getD_some]
        rw [mem_setAdd_iff]
        left
        rfl
      · simp [pyGet, hww] at hg'

theorem teardownClient_eq_of_registered {reg : Registry} {ws : Nat} {gid : PyKey}
    {S : List Nat} (hw : pyGet ws reg.client_to_guild = some gid)
    (hg : pyGet gid reg.clients_by_guild = some S) (hmem : ws ∈ S) :
    teardownClient reg ws = some
      { clients_by_guild :=
          if S.filter (fun w => decide (w ≠ ws)) = [] then pyDel gid reg.clients_by_guild
          else pySet gid (S.filter (fun w => decide (w ≠ ws))) reg.clients_by_guild,
        client_to_guild := pyDel ws reg.client_to_guild } := by
  simp only [teardownClient, hw, hg, Option.getD_some, if_pos hmem]

theorem teardown_preserves_wf {reg : Registry} (ws : Nat) (hwf : reg.wf) :
    ∃ reg', teardownClient reg ws = some reg' ∧ reg'.wf ∧
      keysOf reg'.client_to_guild =
        (keysOf reg.client_to_guild).filter (fun w => decide (w ≠ ws)) := by
  obtain ⟨hkc, hkt, hsets, hfwd, hbwd⟩ := hwf
  cases hw : pyGet ws reg.client_to_guild with
  | none =>
    refine ⟨reg, by simp [teardownClient, hw], ⟨hkc, hkt, hsets, hfwd, hbwd⟩, ?_⟩
    have hm : ws ∉ keysOf reg.client_to_guild := (pyGet_eq_none_iff ws _).1 hw
    exact (List.filter_eq_self.2 fun a ha => by
      simp
      intro he
      exact hm (he ▸ ha)).symm
  | some gid =>
    have hold := hbwd ws gid hw
    cases hg : pyGet gid reg.clients_by_guild with
    | none => rw [hg] at hold; simp at hold
    | some S =>
      rw [hg] at hold
      have hmem : ws ∈ S := by simpa using hold
      have hSne := hsets gid S hg
      -- every member of a set stored under a key other than `gid` differs from `ws`
      have hother : ∀ k s, pyGet k reg.clients_by_guild = some s → k ≠ gid →
          ∀ w' ∈ s, w' ≠ ws := by
        intro k s hks hk w' hw' he
        subst he
        rw [hfwd k s hks w' hw'] at hw
        exact hk (Option.some.inj hw)
      have hctgkeys : keysOf (pyDel ws reg.client_to_guild) =
          (keysOf reg.client_to_guild).filter (fun w => decide (w ≠ ws)) :=
        keysOf_pyDel_eq ws reg.client_to_guild
      have hctgnodup : (keysOf (pyDel ws reg.client_to_guild)).Nodup := by
        rw [hctgkeys]
        exact hkt.filter _
      have hctgget : ∀ w, w ≠ ws →
          pyGet w (pyDel ws reg.client_to_guild) = pyGet w reg.client_to_guild :=
        fun w hwne => pyGet_pyDel_ne _ hwne
      by_cases hnil : S.filter (fun w => decide (w ≠ ws)) = []
      · -- the set became empty: the guild entry is deleted
        have heq : teardownClient reg ws = some
            ⟨pyDel gid reg.clients_by_guild, pyDel ws reg.client_to_guild⟩ := by
          rw [teardownClient_eq_of_registered hw hg hmem, if_pos hnil]
        refine ⟨_, heq, ⟨?_, hctgnodup, ?_, ?_, ?_⟩, hctgkeys⟩
        · rw [show keysOf (Registry.mk (pyDel gid reg.clients_by_guild)
              (pyDel ws reg.client_to_guild)).clients_by_guild =
              keysOf (pyDel gid reg.clients_by_guild) from rfl, keysOf_pyDel_eq]
          exact hkc.filter _
        · intro k s hks
          by_cases hk : k = gid
          · subst hk
            rw [show pyGet k (Registry.mk (pyDel k reg.clients_by_guild)
                (pyDel ws reg.client_to_guild)).clients_by_guild =
                pyGet k (pyDel k reg.clients_by_guild) from rfl, pyGet_pyDel_self] at hks
            exact Option.noConfusion hks
          · rw [show pyGet k (Registry.mk (pyDel gid reg.clients_by_guild)
                (pyDel ws reg.client_to_guild)).clients_by_guild =
                pyGet k (pyDel gid reg.clients_by_guild) from rfl,
              pyGet_pyDel_ne _ hk] at hks
            exact hsets k s hks
        · intro k s hks w' hw'
          by_cases hk : k = gid
          · subst hk
            rw [show pyGet k (Registry.mk (pyDel k reg.clients_by_guild)
                (pyDel ws reg.client_to_guild)).clients_by_guild =
                pyGet k (pyDel k reg.clients_by_guild) from rfl, pyGet_pyDel_self] at hks
            exact Option.noConfusion hks
          · rw [show pyGet k (Registry.mk (pyDel gid reg.clients_by_guild)
                (pyDel ws reg.client_to_guild)).clients_by_guild =
                pyGet k (pyDel gid reg.clients_by_guild) from rfl,
              pyGet_pyDel_ne _ hk] at hks
            show pyGet w' (pyDel ws reg.client_to_guild) = some k
            rw [hctgget w' (hother k s hks hk w' hw')]
            exact hfwd k s hks w' hw'
        · intro w g hg'
          by_cases hwne : w = ws
          · subst hwne
            rw [show pyGet w (Registry.mk (pyDel gid reg.clients_by_guild)
                (pyDel w reg.client_to_guild)).client_to_guild =
                pyGet w (pyDel w reg.client_to_guild) from rfl, pyGet_pyDel_self] at hg'
            exact Option.noConfusion hg'
          · rw [show pyGet w (Registry.mk (pyDel gid reg.clients_by_guild)
                (pyDel ws reg.client_to_guild)).client_to_guild =
                pyGet w (pyDel ws reg.client_to_guild) from rfl, hctgget w hwne] at hg'
            have hold' := hbwd w g hg'
            by_cases hk : g = gid
            · subst hk
              rw [hg] at hold'
              have hwS : w ∈ S := by simpa using hold'
              have := List.filter_eq_nil_iff.1 hnil w hwS
              simp [hwne] at this
            · show w ∈ (pyGet g (pyDel gid reg.clients_by_guild)).getD []
              rw [pyGet_pyDel_ne _ hk]
              exact hold'
      · -- the set stays non-empty: the guild entry keeps the filtered set
        have heq : teardownClient reg ws = some
            ⟨pySet gid (S.filter (fun w => decide (w ≠ ws))) reg.clients_by_guild,
             pyDel ws reg.client_to_guild⟩ := by
          rw [teardownClient_eq_of_registered hw hg hmem, if_neg hnil]
        refine ⟨_, heq, ⟨?_, hctgnodup, ?_, ?_, ?_⟩, hctgkeys⟩
        · show (keysOf (pySet gid (S.filter (fun w => decide (w ≠ ws)))
            reg.clients_by_guild)).Nodup
          rw [keysOf_pySet_mem _ (mem_keys_of_pyGet_some hg)]
          exact hkc
        · intro k s hks
          show s ≠ [] ∧ s.Nodup
          by_cases hk : k = gid
          · subst hk
            rw [show pyGet k (Registry.mk (pySet k (S.filter (fun w => decide (w ≠ ws)))
                reg.clients_by_guild) (pyDel ws reg.client_to_guild)).clients_by_guild =
                pyGet k (pySet k (S.filter (fun w => decide (w ≠ ws)))
                  reg.clients_by_guild) from rfl, pyGet_pySet_self] at hks
            obtain rfl := Option.some.inj hks
            exact ⟨hnil, hSne.2.filter _⟩
          · rw [show pyGet k (Registry.mk (pySet gid (S.filter (fun w => decide (w ≠ ws)))
                reg.clients_by_guild) (pyDel ws reg.client_to_guild)).clients_by_guild =
                pyGet k (pySet gid (S.filter (fun w => decide (w ≠ ws)))
                  reg.clients_by_guild) from rfl, pyGet_pySet_ne _ _ hk] at hks
            exact hsets k s hks
        · intro k s hks w' hw'
          show pyGet w' (pyDel ws reg.client_to_guild) = some k
          by_cases hk : k = gid
          · subst hk
            rw [show pyGet k (Registry.mk (pySet k (S.filter (fun w => decide (w ≠ ws)))
                reg.clients_by_guild) (pyDel ws reg.client_to_guild)).clients_by_guild =
                pyGet k (pySet k (S.filter (fun w => decide (w ≠ ws)))
                  reg.clients_by_guild) from rfl, pyGet_pySet_self] at hks
            obtain rfl := Option.some.inj hks
            have hw'S : w' ∈ S := (List.mem_filter.1 hw').1
            have hw'ne : w' ≠ ws := by
              have := (List.mem_filter.1 hw').2
              simpa using this
            rw [hctgget w' hw'ne]
            exact hfwd k S hg w' hw'S
          · rw [show pyGet k (Registry.mk (pySet gid (S.filter (fun w => decide (w ≠ ws)))
                reg.clients_by_guild) (pyDel ws reg.client_to_guild)).clients_by_guild =
                pyGet k (pySet gid (S.filter (fun w => decide (w ≠ ws)))
                  reg.clients_by_guild) from rfl, pyGet_pySet_ne _ _ hk] at hks
            rw [hctgget w' (hother k s hks hk w' hw')]
            exact hfwd k s hks w' hw'
        · intro w g hg'
          by_cases hwne : w = ws
          · subst hwne
            rw [show pyGet w (Registry.mk (pySet gid (S.filter (fun x => decide (x ≠ w)))
                reg.clients_by_guild) (pyDel w reg.client_to_guild)).client_to_guild =
                pyGet w (pyDel w reg.client_to_guild) from rfl, pyGet_pyDel_self] at hg'
            exact Option.noConfusion hg'
          · rw [show pyGet w (Registry.mk (pySet gid (S.filter (fun x => decide (x ≠ ws)))
                reg.clients_by_guild) (pyDel ws reg.client_to_guild)).client_to_guild =
                pyGet w (pyDel ws reg.client_to_guild) from rfl, hctgget w hwne] at hg'
            have hold' := hbwd w g hg'
            by_cases hk : g = gid
            · subst hk
              rw [hg] at hold'
              show w ∈ (pyGet g (pySet g (S.filter (fun x => decide (x ≠ ws)))
                reg.clients_by_guild)).getD []
              rw [pyGet_pySet_self]
              simp only [Option.getD_some]
              rw [List.mem_filter]
              exact ⟨by simpa using hold', by simpa using hwne⟩
            · show w ∈ (pyGet g (pySet gid (S.filter (fun x => decide (x ≠ ws)))
                reg.clients_by_guild)).getD []
              rw [pyGet_pySet_ne _ _ hk]
              exact hold'

theorem applyOps_wf : ∀ (ops : List RegOp) (reg : Registry), reg.wf →
    regValidB (keysOf reg.client_to_guild) ops = true →
    ∃ reg', applyOps reg ops = some reg' ∧ reg'.wf := by
  intro ops
  induction ops with
  | nil =>
    intro reg hwf _
    exact ⟨reg, rfl, hwf⟩
  | cons op rest ih =>
    intro reg hwf hv
    cases op with
    | register ws gid =>
      simp only [regValidB, Bool.and_eq_true] at hv
      obtain ⟨hfresh, hrest⟩ := hv
      have hfresh' : pyGet ws reg.client_to_guild = none := by
        rw [pyGet_eq_none_iff]
        simpa using hfresh
      obtain ⟨hwf', hkeys⟩ := register_preserves_wf gid hwf hfresh'
      obtain ⟨reg', h1, h2⟩ := ih (registerClient reg ws gid) hwf' (by rw [hkeys]; exact hrest)
      exact ⟨reg', by simp [applyOps, applyOp, h1], h2⟩
    | teardown ws =>
      simp only [regValidB] at hv
      obtain ⟨reg1, ht, hwf1, hkeys⟩ := teardown_preserves_wf ws hwf
      obtain ⟨reg', h1, h2⟩ := ih reg1 hwf1 (by rw [hkeys]; exact hv)
      exact ⟨reg', by simp [applyOps, applyOp, ht, h1], h2⟩

/- ### Decode and broadcast helper lemmas -/

theorem decode_noCandidate {raw : String} (h : extractJsonStr raw = "") :
    decodeResponse raw = ([Effect.consoleLog LogEvent.noJsonFound],
      Except.ok ⟨JValue.str (pyStrip raw), neutralSprite⟩) := by
  simp [decodeResponse, h]

theorem decode_parseFail {raw : String} {e : PyExc} (h1 : extractJsonStr raw ≠ "")
    (h2 : jsonParse (extractJsonStr raw) = Except.error e) :
    decodeResponse raw = ([Effect.consoleLog LogEvent.parseFailed],
      Except.ok ⟨JValue.str (stripFences raw), neutralSprite⟩) := by
  simp [decodeResponse, h1, h2]

theorem decode_objOk {raw : String} {fields : List (String × JValue)}
    (h1 : extractJsonStr raw ≠ "")
    (h2 : jsonParse (extractJsonStr raw) = Except.ok (JValue.obj fields))
    (h3 : pyHashable ((pyGet "emotion" fields).getD (JValue.str "neutral")) = true) :
    decodeResponse raw = ([],
      Except.ok ⟨(pyGet "text" fields).getD (JValue.str "..."),
        pySpriteOf ((pyGet "emotion" fields).getD (JValue.str "neutral"))⟩) := by
  simp [decodeResponse, h1, h2, emotionGet, h3]

theorem firstErr_all_ok {l : List (Except PyExc Unit)}
    (h : ∀ r ∈ l, r = Except.ok ()) : firstErr l = Except.ok () := by
  induction l with
  | nil => rfl
  | cons r rest ih =>
    rw [h r (List.mem_cons_self r rest)]
    exact ih fun r' hr' => h r' (List.mem_cons_of_mem _ hr')

theorem broadcast_all_ok {cbg : List (PyKey × List Nat)} {sendRes : Nat → Except PyExc Unit}
    {gid : String} {clients : List Nat} (payload : ReplyPayload)
    (h1 : pyGet (PyKey.str gid) cbg = some clients) (h2 : clients ≠ [])
    (h3 : ∀ c ∈ clients, sendRes c = Except.ok ()) :
    broadcast_to_clients cbg sendRes gid payload =
      (clients.map (fun c => Effect.wsSend c payload) ++
        [Effect.consoleLog (LogEvent.broadcastDone gid clients.length)], Except.ok ()) := by
  have hf : firstErr (clients.map sendRes) = Except.ok () := by
    refine firstErr_all_ok ?_
    intro r hr
    obtain ⟨c, hc, rfl⟩ := List.mem_map.1 hr
    exact h3 c hc
  simp [broadcast_to_clients, h1, h2, hf]

/- ### C4: the client-registry invariant -/

/-- The well-formedness invariant lifted to the optional result of a
trace: the trace must have succeeded (no `KeyError` from `set.remove`)
and the resulting registry must be well-formed. -/
def wfOpt : Option Registry → Prop
  | some reg => reg.wf
  | none => False

/-- C4: after every finite sequence of register and teardown operations
forming a valid gateway trace from the empty registry (each websocket
handle registers at most once before its teardown, which is what
`websocket_handler` produces: one registration message per connection,
then the `finally` teardown), the trace succeeds and the registry is
well-formed: a guild key exists in `clients_by_guild` iff its connection
set is non-empty (the entry is deleted, never left empty, when the last
connection leaves), and `client_to_guild` binds exactly the currently
registered connections. -/
theorem C4_registry_invariant (ops : List RegOp) (hv : regValidB [] ops = true) :
    wfOpt (applyOps Registry.empty ops) := by
  have hwf : Registry.empty.wf := by
    refine ⟨List.nodup_nil, List.nodup_nil, ?_, ?_, ?_⟩
    · intro k s hks
      exact Option.noConfusion hks
    · intro k s hks
      exact absurd hks (by simp [pyGet, Registry.empty])
    · intro w g hg
      exact absurd hg (by simp [pyGet, Registry.empty])
  obtain ⟨reg', h1, h2⟩ := applyOps_wf ops Registry.empty hwf hv
  rw [h1]
  exact h2

/-- C4 witness: two clients register under guild `"42"`, then both tear
down; the trace is valid, succeeds, and ends in a well-formed registry
(in particular guild `"42"`'s entry is gone, not empty). -/
theorem C4_registry_invariant_witness :
    regValidB [] [RegOp.register 1 (PyKey.str "42"), RegOp.register 2 (PyKey.str "42"),
        RegOp.teardown 1, RegOp.teardown 2] = true ∧
      wfOpt (applyOps Registry.empty [RegOp.register 1 (PyKey.str "42"),
        RegOp.register 2 (PyKey.str "42"), RegOp.teardown 1, RegOp.teardown 2]) :=
  ⟨by decide, C4_registry_invariant _ (by decide)⟩

/- ### C1: behaviour when no display connection is registered -/

/-- C1 counterexample: a message passing the author/guild and
active-channel preconditions whose guild (`7`) has zero registered
display connections.  The pipeline emits exactly one server-side console
log (`print`, source line 284) and returns — the effect list contains no
`Effect.channelSend`, contradicting the claim that a user-visible notice
is emitted on the originating chat channel. -/
theorem C1_counterexample :
    on_message ⟨5, [], [], []⟩ (Except.ok "hi") (fun _ => Except.ok ())
        ⟨false, some 7, 5, "hello", [], "A"⟩ =
      (⟨5, [], [], []⟩, [Effect.consoleLog (LogEvent.noClients "7")]) := rfl

/-- C1 (amended): when the author/guild and active-channel preconditions
pass but the guild id has no entry in `clients_by_guild`, the pipeline
prints a server-side log and stops: the state is unchanged (no session
is created) and the only effect is the console log — in particular no
chat-channel notice, no model call and no broadcast. -/
theorem C1_amended {st : BotState} {msg : InboundMessage} {gid : Nat}
    (modelResult : Except PyExc String) (sendRes : Nat → Except PyExc Unit)
    (h1 : msg.author_is_bot = false) (h2 : msg.guild_id = some gid)
    (h3 : msg.channel_id = st.channelId)
    (h4 : pyGet (PyKey.str (toString gid)) st.clients_by_guild = none) :
    on_message st modelResult sendRes msg =
      (st, [Effect.consoleLog (LogEvent.noClients (toString gid))]) := by
  simp [on_message, h1, h2, h3, h4]

/-- C1 witness: the amended behaviour at a concrete message. -/
theorem C1_amended_witness :
    on_message ⟨5, [], [], []⟩ (Except.ok "ok") (fun _ => Except.ok ())
        ⟨false, some 9, 5, "hey", [], "B"⟩ =
      (⟨5, [], [], []⟩, [Effect.consoleLog (LogEvent.noClients "9")]) :=
  @C1_amended ⟨5, [], [], []⟩ ⟨false, some 9, 5, "hey", [], "B"⟩ 9
    (Except.ok "ok") (fun _ => Except.ok ()) rfl rfl rfl rfl

/- ### C7: empty message with no attachments -/

/-- C7 counterexample: an empty message with no attachments on the
active channel of a guild with a live display connection.  The pipeline
does stop silently (no effects), but the session map changes from `[]`
to `[7]`: the session is created at source lines 288-289, before the
emptiness check at line 295, contradicting the claim that no session is
created. -/
theorem C7_counterexample :
    on_message ⟨5, [(PyKey.str "7", [1])], [], []⟩ (Except.ok "hi")
        (fun _ => Except.ok ()) ⟨false, some 7, 5, "", [], "A"⟩ =
      (⟨5, [(PyKey.str "7", [1])], [7], []⟩, ([] : List Effect)) ∧
      ([7] : List Nat) ≠ [] :=
  ⟨rfl, by simp⟩

/-- C7 (amended): for a message whose stripped text is empty and which
has no attachments (preconditions otherwise passing), the pipeline stops
with no effects — no model call, no broadcast, no chat-channel message —
but the guild's session has already been created (if absent) before the
emptiness check. -/
theorem C7_amended {st : BotState} {msg : InboundMessage} {gid : Nat} {cs : List Nat}
    (modelResult : Except PyExc String) (sendRes : Nat → Except PyExc Unit)
    (h1 : msg.author_is_bot = false) (h2 : msg.guild_id = some gid)
    (h3 : msg.channel_id = st.channelId)
    (h4 : pyGet (PyKey.str (toString gid)) st.clients_by_guild = some cs)
    (h5 : pyStrip msg.content = "") (h6 : msg.attachments = []) :
    on_message st modelResult sendRes msg =
      ({st with chat_sessions := sessionsInsert st.chat_sessions gid}, []) := by
  simp [on_message, h1, h2, h3, h4, h5, h6]

/-- C7 witness: the amended behaviour at a concrete whitespace-only
message. -/
theorem C7_amended_witness :
    on_message ⟨5, [(PyKey.str "7", [1])], [], []⟩ (Except.ok "hi")
        (fun _ => Except.ok ()) ⟨false, some 7, 5, "  ", [], "A"⟩ =
      (⟨5, [(PyKey.str "7", [1])], [7], []⟩, []) :=
  @C7_amended ⟨5, [(PyKey.str "7", [1])], [], []⟩ ⟨false, some 7, 5, "  ", [], "A"⟩ 7 [1]
    (Except.ok "hi") (fun _ => Except.ok ()) rfl rfl rfl rfl (by decide) rfl

/- ### C3: delivery failure during broadcast -/

/-- C3 counterexample: a guild with two registered connections where the
send to connection `1` fails.  Both connections still get their send
attempt (the gather starts every task), but the failure is returned to
the broadcast caller as an exception — `asyncio.gather` without
`return_exceptions` re-raises it (source line 105; there is no
try/except in `broadcast_to_clients`) — contradicting the claim that the
failure is not raised to the caller. -/
theorem C3_counterexample :
    broadcast_to_clients [(PyKey.str "g", [1, 2])]
        (fun c => if c = 1 then Except.error (PyExc.sendError 1) else Except.ok ())
        "g" ⟨JValue.str "hi", "yuuka_neutral.png"⟩ =
      ([Effect.wsSend 1 ⟨JValue.str "hi", "yuuka_neutral.png"⟩,
        Effect.wsSend 2 ⟨JValue.str "hi", "yuuka_neutral.png"⟩],
       Except.error (PyExc.sendError 1)) := rfl

/-- C3 (amended): for every broadcast to a guild with registered
connections, every connection receives a send attempt regardless of
other connections' failures (the gather starts all sends and a failure
does not cancel the siblings), but the outcome returned to the caller is
the first failure among the sends — delivery errors are re-raised by the
gather, not swallowed, and the pipeline's outer handler then reports
them on the chat channel. -/
theorem C3_amended {cbg : List (PyKey × List Nat)} {sendRes : Nat → Except PyExc Unit}
    {gid : String} {clients : List Nat} (payload : ReplyPayload)
    (h1 : pyGet (PyKey.str gid) cbg = some clients) (h2 : clients ≠ []) :
    (∀ c ∈ clients,
      Effect.wsSend c payload ∈ (broadcast_to_clients cbg sendRes gid payload).1) ∧
    (broadcast_to_clients cbg sendRes gid payload).2 = firstErr (clients.map sendRes) := by
  unfold broadcast_to_clients
  rw [h1]
  simp only [if_neg h2]
  cases hf : firstErr (clients.map sendRes) with
  | ok u =>
    refine ⟨?_, by simp⟩
    intro c hc
    exact List.mem_append_left _ (List.mem_map.2 ⟨c, hc, rfl⟩)
  | error e =>
    refine ⟨?_, by simp⟩
    intro c hc
    exact List.mem_map.2 ⟨c, hc, rfl⟩

/-- C3 witness: the amended behaviour at a concrete registry with one
failing and one succeeding connection — both connections get their send
attempt and the caller receives the first failure. -/
theorem C3_amended_witness :
    Effect.wsSend 1 (⟨JValue.str "hi", "yuuka_neutral.png"⟩ : ReplyPayload) ∈
      (broadcast_to_clients [(PyKey.str "g", [1, 2])]
        (fun c => if c = 1 then Except.error (PyExc.sendError 1) else Except.ok ())
        "g" ⟨JValue.str "hi", "yuuka_neutral.png"⟩).1 ∧
    Effect.wsSend 2 (⟨JValue.str "hi", "yuuka_neutral.png"⟩ : ReplyPayload) ∈
      (broadcast_to_clients [(PyKey.str "g", [1, 2])]
        (fun c => if c = 1 then Except.error (PyExc.sendError 1) else Except.ok ())
        "g" ⟨JValue.str "hi", "yuuka_neutral.png"⟩).1 ∧
    (broadcast_to_clients [(PyKey.str "g", [1, 2])]
        (fun c => if c = 1 then Except.error (PyExc.sendError 1) else Except.ok ())
        "g" ⟨JValue.str "hi", "yuuka_neutral.png"⟩).2 =
      firstErr ([1, 2].map (fun c =>
        if c = 1 then Except.error (PyExc.sendError 1) else Except.ok ())) :=
  ⟨(@C3_amended [(PyKey.str "g", [1, 2])]
      (fun c => if c = 1 then Except.error (PyExc.sendError 1) else Except.ok ())
      "g" [1, 2] ⟨JValue.str "hi", "yuuka_neutral.png"⟩ rfl (by simp)).1 1 (by simp),
   (@C3_amended [(PyKey.str "g", [1, 2])]
      (fun c => if c = 1 then Except.error (PyExc.sendError 1) else Except.ok ())
      "g" [1, 2] ⟨JValue.str "hi", "yuuka_neutral.png"⟩ rfl (by simp)).1 2 (by simp),
   (@C3_amended [(PyKey.str "g", [1, 2])]
      (fun c => if c = 1 then Except.error (PyExc.sendError 1) else Except.ok ())
      "g" [1, 2] ⟨JValue.str "hi", "yuuka_neutral.png"⟩ rfl (by simp)).2⟩

/- ### C5: decode of a successfully parsed JSON object -/

/-- C5 counterexample: the candidate `{"emotion":[]}` parses as a JSON
object whose `emotion` value (a list) is not a key of the sprite
mapping, yet the decode does not fall back to neutral: Python
`dict.get` raises `TypeError` on the unhashable key, which the inner
`except (json.JSONDecodeError, KeyError)` does not catch, so the decode
step errors out (and the pipeline's outer handler reports it, with no
broadcast). -/
theorem C5_counterexample :
    decodeResponse "\x7b\"emotion\":[]\x7d" = ([], Except.error PyExc.typeError) := rfl

/-- C5 (amended): for every candidate that parses as a JSON object whose
`emotion` value (or the default `"neutral"` when absent) is hashable,
the decoded payload has dialogue equal to the object's `text` field if
present and the placeholder ellipsis otherwise, and sprite equal to the
mapping entry of the `emotion` value, falling back to the `neutral`
entry when the field is absent or its value is not a key of the mapping;
an unhashable `emotion` value instead raises `TypeError` out of the
decode step. -/
theorem C5_amended {raw : String} {fields : List (String × JValue)}
    (h1 : extractJsonStr raw ≠ "")
    (h2 : jsonParse (extractJsonStr raw) = Except.ok (JValue.obj fields))
    (h3 : pyHashable ((pyGet "emotion" fields).getD (JValue.str "neutral")) = true) :
    decodeResponse raw = ([],
      Except.ok ⟨(pyGet "text" fields).getD (JValue.str "..."),
        pySpriteOf ((pyGet "emotion" fields).getD (JValue.str "neutral"))⟩) :=
  decode_objOk h1 h2 h3

/-- C5 witness: the claim's own example `{"emotion":"unknown_key"}` with
no `text` field yields the ellipsis and the neutral sprite. -/
theorem C5_amended_witness :
    decodeResponse "\x7b\"emotion\":\"unknown_key\"\x7d" =
      ([], Except.ok ⟨JValue.str "...", "yuuka_neutral.png"⟩) := by
  have h := @C5_amended "\x7b\"emotion\":\"unknown_key\"\x7d"
    [("emotion", JValue.str "unknown_key")] (by decide) rfl rfl
  rw [h]
  rfl

/- ### C6: decode fallback on no candidate or parse failure -/

/-- C6 counterexample: for the raw text `"```json```"` the fenced-block
extraction yields the empty candidate, so the no-candidate branch runs
and sets dialogue to `raw.strip()` — which still contains the fence
markers — whereas the claim demands the fence-stripped text (the empty
string). -/
theorem C6_counterexample :
    decodeResponse "```json```" = ([Effect.consoleLog LogEvent.noJsonFound],
      Except.ok ⟨JValue.str "```json```", "yuuka_neutral.png"⟩) ∧
    stripFences "```json```" = "" ∧ pyStrip "```json```" = "```json```" :=
  ⟨rfl, rfl, rfl⟩

/-- C6 (amended): when extraction yields no candidate the dialogue is
the raw text whitespace-stripped only (fence markers, if any, are kept —
reachable when a fenced block strips to nothing), with the neutral
sprite; when a candidate exists but fails to parse, the dialogue is the
raw text with both fence markers removed and whitespace-stripped, with
the neutral sprite. -/
theorem C6_amended (raw : String) :
    (extractJsonStr raw = "" →
      decodeResponse raw = ([Effect.consoleLog LogEvent.noJsonFound],
        Except.ok ⟨JValue.str (pyStrip raw), neutralSprite⟩)) ∧
    (∀ e : PyExc, extractJsonStr raw ≠ "" →
      jsonParse (extractJsonStr raw) = Except.error e →
      decodeResponse raw = ([Effect.consoleLog LogEvent.parseFailed],
        Except.ok ⟨JValue.str (stripFences raw), neutralSprite⟩)) :=
  ⟨fun h => decode_noCandidate h, fun _ h1 h2 => decode_parseFail h1 h2⟩

/-- C6 witness: both amended branches at concrete inputs — the spec's
unstructured-text example, and a malformed candidate `{"text": }`. -/
theorem C6_amended_witness :
    decodeResponse "Hello there, no structure here" =
      ([Effect.consoleLog LogEvent.noJsonFound],
       Except.ok ⟨JValue.str (pyStrip "Hello there, no structure here"), neutralSprite⟩) ∧
    decodeResponse "\x7b\"text\": \x7d" =
      ([Effect.consoleLog LogEvent.parseFailed],
       Except.ok ⟨JValue.str (stripFences "\x7b\"text\": \x7d"), neutralSprite⟩) :=
  ⟨(C6_amended "Hello there, no structure here").1 (by decide),
   (C6_amended "\x7b\"text\": \x7d").2 PyExc.jsonDecodeError (by decide) rfl⟩

/- ### C2: response-decode errors and the pipeline -/

/-- C2 counterexample: the model response `"```json\n[1, 2]\n```"` makes
decode step 3 parse the candidate to a Python list; step 4's `.get` then
raises `AttributeError`, which the inner
`except (json.JSONDecodeError, KeyError)` does not catch.  The error
escapes the decode block into the outer `except Exception` handler: the
pipeline sends an error report on the chat channel and performs no
broadcast (no `Effect.wsSend`), contradicting the claim that every
decode error degrades to the step-5 fallback with a broadcast still
occurring. -/
theorem C2_counterexample :
    on_message ⟨5, [(PyKey.str "7", [1])], [], []⟩ (Except.ok "```json\n[1, 2]\n```")
        (fun _ => Except.ok ()) ⟨false, some 7, 5, "hello", [], "A"⟩ =
      (⟨5, [(PyKey.str "7", [1])], [7], []⟩,
       [Effect.modelCall
          [PromptPart.text ("내 이름은 " ++ apos ++ "A" ++ apos ++ "이야.\n\nhello")],
        Effect.consoleLog (LogEvent.rawResponse "```json\n[1, 2]\n```"),
        Effect.consoleLog LogEvent.modelCallError,
        Effect.channelSend (errNotice PyExc.attributeError)]) := rfl

/-- The step-5 fallback payload: raw text (whitespace-stripped in the
no-candidate branch, fence-stripped in the parse-failure branch) with
the neutral sprite.  Statement-level abbreviation for C2. -/
def fallbackPayload (raw : String) : ReplyPayload :=
  if extractJsonStr raw = "" then ⟨JValue.str (pyStrip raw), neutralSprite⟩
  else ⟨JValue.str (stripFences raw), neutralSprite⟩

/-- C2 (amended): errors of the caught class — a missing candidate or a
`json.JSONDecodeError` from the candidate — degrade to the step-5
fallback for that message only, and a broadcast of the fallback payload
(neutral sprite) still occurs to every registered connection with no
chat-channel message; a candidate parsing to a non-object
(`AttributeError`) or an unhashable emotion key (`TypeError`) instead
escapes to the pipeline's model-error handler, which reports on the chat
channel and does not broadcast (see the counterexample). -/
theorem C2_amended {st : BotState} {msg : InboundMessage} {gid : Nat} {raw : String}
    {sendRes : Nat → Except PyExc Unit} {cs : List Nat}
    (h1 : msg.author_is_bot = false) (h2 : msg.guild_id = some gid)
    (h3 : msg.channel_id = st.channelId)
    (h4 : pyGet (PyKey.str (toString gid)) st.clients_by_guild = some cs)
    (h5 : ¬(pyStrip msg.content = "" ∧ msg.attachments = []))
    (h6 : cs ≠ []) (h7 : ∀ c ∈ cs, sendRes c = Except.ok ())
    (h8 : extractJsonStr raw = "" ∨ jsonParse (extractJsonStr raw) =
      Except.error PyExc.jsonDecodeError) :
    (decodeResponse raw).2 = Except.ok (fallbackPayload raw) ∧
    (fallbackPayload raw).sprite = neutralSprite ∧
    on_message st (Except.ok raw) sendRes msg =
      ({st with chat_sessions := sessionsInsert st.chat_sessions gid},
       (processAttachments msg.attachments).2 ++
         [Effect.modelCall (promptPartsOf st msg),
          Effect.consoleLog (LogEvent.rawResponse raw)] ++
         (decodeResponse raw).1 ++
         (cs.map (fun c => Effect.wsSend c (fallbackPayload raw)) ++
           [Effect.consoleLog (LogEvent.broadcastDone (toString gid) cs.length)])) := by
  have hd : decodeResponse raw =
      ((decodeResponse raw).1, Except.ok (fallbackPayload raw)) := by
    by_cases he : extractJsonStr raw = ""
    · rw [decode_noCandidate he]
      simp [fallbackPayload, he]
    · rcases h8 with h8 | h8
      · exact absurd h8 he
      · rw [decode_parseFail he h8]
        simp [fallbackPayload, he]
  have hb := @broadcast_all_ok st.clients_by_guild sendRes (toString gid) cs
    (fallbackPayload raw) h4 h6 h7
  refine ⟨by rw [hd], by unfold fallbackPayload; split <;> rfl, ?_⟩
  simp only [on_message, h1, Bool.false_eq_true, if_false, h2, h3, ne_eq,
    not_true_eq_false, if_neg, h4, h5]
  rw [hd]
  simp only [hb]

/-- C2 witness: the amended behaviour end-to-end at a concrete
unstructured model response with one registered connection. -/
theorem C2_amended_witness :
    (decodeResponse "Hello there, no structure here").2 =
      Except.ok (fallbackPayload "Hello there, no structure here") ∧
    (fallbackPayload "Hello there, no structure here").sprite = neutralSprite ∧
    on_message ⟨5, [(PyKey.str "7", [1])], [], []⟩
        (Except.ok "Hello there, no structure here") (fun _ => Except.ok ())
        ⟨false, some 7, 5, "hi", [], "A"⟩ =
      (⟨5, [(PyKey.str "7", [1])], [7], []⟩,
       (processAttachments []).2 ++
         [Effect.modelCall (promptPartsOf ⟨5, [(PyKey.str "7", [1])], [], []⟩
            ⟨false, some 7, 5, "hi", [], "A"⟩),
          Effect.consoleLog (LogEvent.rawResponse "Hello there, no structure here")] ++
         (decodeResponse "Hello there, no structure here").1 ++
         ([1].map (fun c =>
            Effect.wsSend c (fallbackPayload "Hello there, no structure here")) ++
           [Effect.consoleLog (LogEvent.broadcastDone "7" 1)])) :=
  @C2_amended ⟨5, [(PyKey.str "7", [1])], [], []⟩ ⟨false, some 7, 5, "hi", [], "A"⟩ 7
    "Hello there, no structure here" (fun _ => Except.ok ()) [1]
    rfl rfl rfl rfl (by decide) (by simp) (fun c _ => rfl) (Or.inl (by decide))

/- ### C9: invalid first message on a display connection -/

/-- `True` exactly on the successful-handshake outcome. -/
def HandshakeResult.isRegistered : HandshakeResult → Bool
  | HandshakeResult.registered _ => true
  | _ => false

/-- C9: a first message that is not a JSON object carrying
`type == "register"` and a `guild_id` key never touches the registries:
whether `json.loads` fails (caught, handler returns and the connection
closes), the value is a non-dict (`AttributeError`, the serving library
closes the connection), or the envelope check fails (explicit
`close()`), the registry is returned unchanged and the connection is
never registered. -/
theorem C9_invalid_registration (reg : Registry) (ws : Nat) (m : String)
    (h : ∀ fields : List (String × JValue),
      jsonParse m = Except.ok (JValue.obj fields) →
      ¬(pyGet "type" fields = some (JValue.str "register") ∧
        (pyGet "guild_id" fields).isSome)) :
    (handleFirstMessage reg ws m).1 = reg ∧
      (handleFirstMessage reg ws m).2.isRegistered = false := by
  cases hp : jsonParse m with
  | error e => simp [handleFirstMessage, hp, HandshakeResult.isRegistered]
  | ok v =>
    cases v with
    | obj fields =>
      have hnot := h fields hp
      cases ht : pyGet "type" fields with
      | none => simp [handleFirstMessage, hp, ht, HandshakeResult.isRegistered]
      | some tv =>
        cases hg : pyGet "guild_id" fields with
        | none =>
          cases tv <;> simp [handleFirstMessage, hp, ht, hg, HandshakeResult.isRegistered]
        | some v' =>
          cases tv with
          | str tag =>
            by_cases htag : tag = "register"
            · exact absurd ⟨htag ▸ ht, by simp [hg]⟩ hnot
            · simp [handleFirstMessage, hp, ht, hg, htag, HandshakeResult.isRegistered]
          | num n => simp [handleFirstMessage, hp, ht, hg, HandshakeResult.isRegistered]
          | bool b => simp [handleFirstMessage, hp, ht, hg, HandshakeResult.isRegistered]
          | null => simp [handleFirstMessage, hp, ht, hg, HandshakeResult.isRegistered]
          | arr a => simp [handleFirstMessage, hp, ht, hg, HandshakeResult.isRegistered]
          | obj o => simp [handleFirstMessage, hp, ht, hg, HandshakeResult.isRegistered]
    | str s => simp [handleFirstMessage, hp, HandshakeResult.isRegistered]
    | num n => simp [handleFirstMessage, hp, HandshakeResult.isRegistered]
    | bool b => simp [handleFirstMessage, hp, HandshakeResult.isRegistered]
    | null => simp [handleFirstMessage, hp, HandshakeResult.isRegistered]
    | arr a => simp [handleFirstMessage, hp, HandshakeResult.isRegistered]

/-- C9 witness: a non-JSON first message against a non-empty registry
leaves the registry unchanged and does not register the connection. -/
theorem C9_invalid_registration_witness :
    (handleFirstMessage ⟨[(PyKey.str "7", [1])], [(1, PyKey.str "7")]⟩ 2 "hello").1 =
      (⟨[(PyKey.str "7", [1])], [(1, PyKey.str "7")]⟩ : Registry) ∧
    (handleFirstMessage ⟨[(PyKey.str "7", [1])], [(1, PyKey.str "7")]⟩ 2
        "hello").2.isRegistered = false :=
  C9_invalid_registration _ 2 "hello" (by
    intro fields hp
    rw [show jsonParse "hello" = Except.error PyExc.jsonDecodeError from rfl] at hp
    exact Except.noConfusion hp)

/- ### C10: the registry key is the verbatim JSON value, the pipeline
key is `str(guild.id)` -/

theorem toKey?_eq_str {v : JValue} {s : String} (h : toKey? v = some (PyKey.str s)) :
    v = JValue.str s := by
  cases v <;> simp [toKey?] at h
  simp [h]

theorem wsSend_not_mem_broadcast {cbg : List (PyKey × List Nat)}
    (sendRes : Nat → Except PyExc Unit) (gid : String) (payload : ReplyPayload) {ws : Nat}
    (h : ws ∉ (pyGet (PyKey.str gid) cbg).getD []) :
    Effect.wsSend ws payload ∉ (broadcast_to_clients cbg sendRes gid payload).1 := by
  unfold broadcast_to_clients
  cases hg : pyGet (PyKey.str gid) cbg with
  | none => simp
  | some clients =>
    rw [hg] at h
    simp only [Option.getD_some] at h
    by_cases hc : clients = []
    · simp [hc]
    · simp only [if_neg hc]
      cases hf : firstErr (clients.map sendRes) with
      | ok u =>
        intro hmem
        rcases List.mem_append.1 hmem with hmem | hmem
        · obtain ⟨c, hcm, he⟩ := List.mem_map.1 hmem
          injection he with h1 h2
          exact h (h1 ▸ hcm)
        · simp at hmem
      | error e =>
        intro hmem
        obtain ⟨c, hcm, he⟩ := List.mem_map.1 hmem
        injection he with h1 h2
        exact h (h1 ▸ hcm)

/-- C10: a display connection whose registration `guild_id` value is not
the exact string form of guild `g`'s numeric id (e.g. the JSON number
`42` rather than the string `"42"`) is stored under its verbatim key and
therefore never alters guild `g`'s entry under the pipeline's key
`str(guild.id)`: the pipeline's no-client gate and the broadcast lookup
are unaffected by the registration, and no broadcast for guild `g`
delivers to that connection. -/
theorem C10_guild_key_mismatch {reg : Registry} {ws : Nat} {m : String}
    {fields : List (String × JValue)} {v : JValue} (g : Nat)
    (sendRes : Nat → Except PyExc Unit) (payload : ReplyPayload)
    (hp : jsonParse m = Except.ok (JValue.obj fields))
    (ht : pyGet "type" fields = some (JValue.str "register"))
    (hg : pyGet "guild_id" fields = some v)
    (hne : v ≠ JValue.str (toString g))
    (hout : ws ∉ (pyGet (PyKey.str (toString g)) reg.clients_by_guild).getD []) :
    pyGet (PyKey.str (toString g)) (handleFirstMessage reg ws m).1.clients_by_guild =
      pyGet (PyKey.str (toString g)) reg.clients_by_guild ∧
    Effect.wsSend ws payload ∉ (broadcast_to_clients
      (handleFirstMessage reg ws m).1.clients_by_guild sendRes (toString g) payload).1 := by
  cases hk : toKey? v with
  | none =>
    have hred : (handleFirstMessage reg ws m).1 = reg := by
      simp [handleFirstMessage, hp, ht, hg, hk]
    rw [hred]
    exact ⟨rfl, wsSend_not_mem_broadcast sendRes _ payload hout⟩
  | some k =>
    have hkne : PyKey.str (toString g) ≠ k := by
      intro he
      exact hne (toKey?_eq_str (he ▸ hk))
    have heq : pyGet (PyKey.str (toString g)) (registerClient reg ws k).clients_by_guild =
        pyGet (PyKey.str (toString g)) reg.clients_by_guild := by
      simp only [registerClient]
      exact pyGet_pySet_ne _ _ hkne
    have hred : (handleFirstMessage reg ws m).1 = registerClient reg ws k := by
      simp [handleFirstMessage, hp, ht, hg, hk]
    rw [hred]
    refine ⟨heq, ?_⟩
    apply wsSend_not_mem_broadcast
    rw [heq]
    exact hout

/-- C10 witness: registering into the empty registry with the JSON
number `42` as `guild_id` leaves guild `42`'s string-keyed entry absent,
and a broadcast for guild `42` does not reach the connection. -/
theorem C10_guild_key_mismatch_witness :
    pyGet (PyKey.str "42") (handleFirstMessage Registry.empty 1
        "\x7b\"type\":\"register\",\"guild_id\":42\x7d").1.clients_by_guild =
      pyGet (PyKey.str "42") Registry.empty.clients_by_guild ∧
    Effect.wsSend 1 (⟨JValue.str "hi", "yuuka_neutral.png"⟩ : ReplyPayload) ∉
      (broadcast_to_clients (handleFirstMessage Registry.empty 1
          "\x7b\"type\":\"register\",\"guild_id\":42\x7d").1.clients_by_guild
        (fun _ => Except.ok ()) "42" ⟨JValue.str "hi", "yuuka_neutral.png"⟩).1 :=
  @C10_guild_key_mismatch Registry.empty 1 "\x7b\"type\":\"register\",\"guild_id\":42\x7d"
    [("type", JValue.str "register"), ("guild_id", JValue.num 42)] (JValue.num 42) 42
    (fun _ => Except.ok ()) ⟨JValue.str "hi", "yuuka_neutral.png"⟩
    rfl rfl rfl (by simp) (by simp [pyGet, Registry.empty])

/- ### C8: knowledge-store reload -/

theorem kload_fold_append : ∀ (files : List KFile) (acc : List (String × KEntry)),
    (∀ f ∈ files, f.base ∉ keysOf acc) → (files.map KFile.base).Nodup →
    files.foldl (fun cache f =>
      match f.content with
      | some e => pySet f.base e cache
      | none => cache) acc =
    acc ++ files.filterMap (fun f => f.content.map (fun e => (f.base, e))) := by
  intro files
  induction files with
  | nil =>
    intro acc _ _
    simp
  | cons f rest ih =>
    intro acc hfresh hnd
    have hndr : (rest.map KFile.base).Nodup := (List.nodup_cons.1 (by simpa using hnd)).2
    cases hc : f.content with
    | none =>
      simp only [List.foldl_cons, hc]
      rw [ih acc (fun f' hf' => hfresh f' (List.mem_cons_of_mem _ hf')) hndr]
      simp [List.filterMap_cons, hc]
    | some e =>
      have hb : f.base ∉ keysOf acc := hfresh f (List.mem_cons_self _ _)
      have hfresh' : ∀ f' ∈ rest, f'.base ∉ keysOf (acc ++ [(f.base, e)]) := by
        intro f' hf'
        rw [keysOf_append]
        intro hmem
        rcases List.mem_append.1 hmem with hmem | hmem
        · exact hfresh f' (List.mem_cons_of_mem _ hf') hmem
        · have heq : f'.base = f.base := by simpa [keysOf] using hmem
          have hne : f.base ∉ rest.map KFile.base :=
            (List.nodup_cons.1 (by simpa using hnd)).1
          exact hne (heq ▸ List.mem_map.2 ⟨f', hf', rfl⟩)
      simp only [List.foldl_cons, hc]
      rw [pySet_fresh e hb, ih (acc ++ [(f.base, e)]) hfresh' hndr]
      simp [List.filterMap_cons, hc]

theorem kload_filterMap_length (files : List KFile) :
    (files.filterMap (fun f => f.content.map (fun e => (f.base, e)))).length =
      (files.filter (fun f => f.content.isSome)).length := by
  induction files with
  | nil => rfl
  | cons f rest ih =>
    cases hc : f.content <;>
      simp [List.filterMap_cons, List.filter_cons, hc, ih]

theorem kload_filterMap_keys (files : List KFile) :
    keysOf (files.filterMap (fun f => f.content.map (fun e => (f.base, e)))) =
      (files.filter (fun f => f.content.isSome)).map KFile.base := by
  induction files with
  | nil => rfl
  | cons f rest ih =>
    cases hc : f.content <;>
      simp [List.filterMap_cons, List.filter_cons, hc, keysOf] <;>
      simpa [keysOf] using ih

/-- C8: a knowledge-store reload over a directory listing (distinct base
names, as a single directory guarantees) loads exactly the successfully
read files — a per-file read failure skips that file without aborting
the rest —, the new cache is computed from the current listing alone
(stale entries from removed files cannot survive, as
`load_knowledge_base` rebuilds from `{}`), and the reported count
(`len(knowledge_cache)` in the reload command) equals the number of
successfully loaded entries. -/
theorem C8_knowledge_reload (files : List KFile)
    (hnd : (files.map KFile.base).Nodup) :
    load_knowledge_base true files =
      files.filterMap (fun f => f.content.map (fun e => (f.base, e))) ∧
    reload_knowledge_count true files =
      (files.filter (fun f => f.content.isSome)).length ∧
    keysOf (load_knowledge_base true files) =
      (files.filter (fun f => f.content.isSome)).map KFile.base := by
  have h1 : load_knowledge_base true files =
      files.filterMap (fun f => f.content.map (fun e => (f.base, e))) := by
    unfold load_knowledge_base
    simpa using kload_fold_append files [] (by simp [keysOf]) hnd
  refine ⟨h1, ?_, ?_⟩
  · unfold reload_knowledge_count
    rw [h1, kload_filterMap_length]
  · rw [h1, kload_filterMap_keys]

/-- C8 witness: three files where the middle one fails to read — the
failing file is skipped, the other two load, and the count is 2. -/
theorem C8_knowledge_reload_witness :
    load_knowledge_base true ([⟨"a.txt", some (KEntry.ktext "x")⟩, ⟨"b.png", none⟩,
        ⟨"c.md", some (KEntry.ktext "y")⟩] : List KFile) =
      ([⟨"a.txt", some (KEntry.ktext "x")⟩, ⟨"b.png", none⟩,
        ⟨"c.md", some (KEntry.ktext "y")⟩] : List KFile).filterMap
          (fun f => f.content.map (fun e => (f.base, e))) ∧
    reload_knowledge_count true ([⟨"a.txt", some (KEntry.ktext "x")⟩, ⟨"b.png", none⟩,
        ⟨"c.md", some (KEntry.ktext "y")⟩] : List KFile) =
      (([⟨"a.txt", some (KEntry.ktext "x")⟩, ⟨"b.png", none⟩,
        ⟨"c.md", some (KEntry.ktext "y")⟩] : List KFile).filter
          (fun f => f.content.isSome)).length ∧
    keysOf (load_knowledge_base true ([⟨"a.txt", some (KEntry.ktext "x")⟩, ⟨"b.png", none⟩,
        ⟨"c.md", some (KEntry.ktext "y")⟩] : List KFile)) =
      (([⟨"a.txt", some (KEntry.ktext "x")⟩, ⟨"b.png", none⟩,
        ⟨"c.md", some (KEntry.ktext "y")⟩] : List KFile).filter
          (fun f => f.content.isSome)).map KFile.base :=
  C8_knowledge_reload _ (by decide)

end YuukaRender
